import Mathlib

/-!
Shallow embedding of `src/sqlite_mcp_server.py`, the SQLite MCP server, and
verification of the specification claims about its query-execution and
schema-introspection gateway.

The embedding models:
* the path resolver `get_db_path` on top of a small model of Python
  `pathlib` paths (absolute flag + component list, `/`-join semantics);
* the statement gateway `execute_query` / `execute_sql`, parameterized by
  the outcome the SQLite engine produces for the statement (the engine is
  an external collaborator: it either yields a cursor with fetched rows and
  a rowcount, or raises an `sqlite3.Error`);
* the connection/commit/rollback event trace of each operation, needed to
  reason about which statements reach the engine and about connection
  release (Python's `sqlite3` connection context manager commits on normal
  exit and rolls back on an exception; it does not close the connection);
* `optimize_database`, `backup_database`, `create_table` and `get_schema`.

Python `Dict` responses are modelled as inductive/structure types with one
constructor per `return` site of the source; an unhandled Python exception
is modelled as `Except.error`.
-/

namespace SqliteMcp

/-- Model of a Python `pathlib` path value: an absolute-path flag plus the
list of path components. -/
structure PyPath where
  absolute : Bool
  components : List String
deriving DecidableEq, Repr

/-- Split a character list on a separator character (structural recursion;
this is how `pathlib` tokenizes a path string on slashes). -/
def splitOnChar (sep : Char) : List Char → List (List Char)
  | [] => [[]]
  | c :: rest =>
    if c = sep then [] :: splitOnChar sep rest
    else
      match splitOnChar sep rest with
      | [] => [[c]]
      | h :: t => (c :: h) :: t

/-- Model of `pathlib` parsing of a path string: absolute iff it starts with
a slash; the components are the nonempty, non-`.` slash-separated pieces
(`Path("a/./b").parts == ("a", "b")`; `..` components are kept verbatim). -/
def parsePath (s : String) : PyPath where
  absolute := match s.toList with
    | c :: _ => c == '/'
    | [] => false
  components := ((splitOnChar '/' s.toList).map String.mk).filter
    (fun c => !(c == "") && !(c == "."))

/-- Model of the `/` operator on `pathlib` paths (`p / q`): an absolute
right operand replaces the left operand entirely, otherwise the component
lists are concatenated. No `..` resolution happens at join time. -/
def joinPath (p q : PyPath) : PyPath :=
  if q.absolute then q else ⟨p.absolute, p.components ++ q.components⟩

/-- Configuration built in `SQLiteServerConfig.__init__`
(src/sqlite_mcp_server.py lines 43-49): the sandbox directory `./data`
(pathlib parses it to the single component `data`), the row cap
`max_results = 1000`, and the SQL keyword allow-list. -/
structure SQLiteServerConfig where
  data_dir : PyPath
  max_results : Nat
  allowed_operations : List String
deriving DecidableEq, Repr

/-- The module-level `config = SQLiteServerConfig()` object (line 53). -/
def config : SQLiteServerConfig where
  data_dir := ⟨false, ["data"]⟩
  max_results := 1000
  allowed_operations := ["SELECT", "INSERT", "UPDATE", "DELETE", "CREATE", "DROP", "ALTER"]

/-- Embedding of `get_db_path` (lines 113-115): the caller-supplied name is
joined verbatim onto the sandbox directory, `config.data_dir / database`. -/
def get_db_path (database : String) : PyPath :=
  joinPath config.data_dir (parsePath database)

/-- One step of filesystem `.`/`..` resolution over a component stack, as
the operating system resolves the path when the file is opened: `.` is
dropped, `..` pops the previous component (or accumulates above the start
of a relative path), anything else is pushed. -/
def dotStep (stack : List String) (c : String) : List String :=
  if c = "." then stack
  else if c = ".." then
    match stack.getLast? with
    | none => [".."]
    | some l => if l = ".." then stack ++ [".."] else stack.dropLast
  else stack ++ [c]

/-- Resolve all `.`/`..` components of a component list. -/
def resolveDots (cs : List String) : List String := cs.foldl dotStep []

/-- A path is a descendant of the sandbox root `./data` iff it is relative
and, after resolving `.`/`..` components, still has `data` as its first
component. -/
def isUnderDataDir (p : PyPath) : Bool :=
  !p.absolute &&
    (match resolveDots p.components with
     | "data" :: _ => true
     | _ => false)

/-- Folding `dotStep` over components containing no `.` and no `..` simply
appends them to the stack. -/
theorem foldl_dotStep_of_no_dots (cs : List String) (st : List String)
    (h : ∀ c ∈ cs, c ≠ ".." ∧ c ≠ ".") :
    List.foldl dotStep st cs = st ++ cs := by
  induction cs generalizing st with
  | nil => simp
  | cons c rest ih =>
    have hc := h c (List.mem_cons_self c rest)
    have hstep : dotStep st c = st ++ [c] := by
      unfold dotStep
      rw [if_neg hc.2, if_neg hc.1]
    rw [List.foldl_cons, hstep, ih (st ++ [c]) (fun x hx => h x (List.mem_cons_of_mem _ hx))]
    simp

/-- C1 fails on the code: `get_db_path` joins the caller-supplied name
verbatim, so a name with a traversal sequence resolves outside the sandbox
root `./data`, and an absolute name replaces the sandbox root entirely. -/
theorem get_db_path_escapes_sandbox :
    isUnderDataDir (get_db_path "../escape.db") = false ∧
    isUnderDataDir (get_db_path "/etc/passwd") = false := by
  decide

/-- C1 (amended): for every caller-supplied database name that is not
absolute and whose parsed components contain no `..` traversal sequence,
the path returned by `get_db_path` is a descendant of the sandbox root;
names containing traversal sequences or absolute-path syntax are joined
verbatim and can resolve outside the sandbox root. -/
theorem get_db_path_stays_in_sandbox (database : String)
    (hrel : (parsePath database).absolute = false)
    (hdots : ".." ∉ (parsePath database).components) :
    isUnderDataDir (get_db_path database) = true := by
  have hno : ∀ c ∈ (parsePath database).components, c ≠ ".." ∧ c ≠ "." := by
    intro c hc
    refine ⟨fun e => hdots (e ▸ hc), fun e => ?_⟩
    have hmem : c ∈ ((splitOnChar '/' database.toList).map String.mk).filter
        (fun c => !(c == "") && !(c == ".")) := hc
    have := List.of_mem_filter hmem
    subst e
    simp at this
  unfold get_db_path joinPath
  rw [hrel]
  simp only [if_neg (by simp : ¬ (false = true))]
  unfold isUnderDataDir resolveDots
  have hdata : dotStep [] "data" = ["data"] := by decide
  rw [show (config.data_dir.components ++ (parsePath database).components)
        = "data" :: (parsePath database).components from rfl,
      List.foldl_cons, hdata, foldl_dotStep_of_no_dots _ _ hno]
  rfl

/-- Witness for the amended C1 at the concrete name `main.db`. -/
theorem get_db_path_stays_in_sandbox_witness :
    (parsePath "main.db").absolute = false ∧
    ".." ∉ (parsePath "main.db").components ∧
    isUnderDataDir (get_db_path "main.db") = true :=
  ⟨by decide, by decide, get_db_path_stays_in_sandbox "main.db" (by decide) (by decide)⟩

/-- A fetched row, already converted to a column-name-keyed mapping as by
`dict(row)` (line 137); values are modelled as their JSON string forms. -/
abbrev Row := List (String × String)

/-- The cursor state after a successful `cursor.execute`: the rows a
subsequent `fetchall` returns and the engine-reported `rowcount`
(`-1` when no rows were affected, as in Python). -/
structure Cursor where
  rows : List Row
  rowcount : Int
deriving DecidableEq, Repr

/-- Outcome the SQLite engine produces for one `cursor.execute` call: either
a cursor, or a raised `sqlite3.Error` with its message and class name. -/
inductive ExecOutcome where
  | ok (c : Cursor)
  | sqliteError (msg ty : String)
deriving DecidableEq, Repr

/-- Embedding of `query.strip().upper().split()[0]` when it exists
(lines 132 and 172): the first whitespace-delimited token of the
upper-cased query, or `none` when the query is empty or all whitespace
(in which case the Python expression raises `IndexError`). -/
def firstToken? (q : String) : Option String :=
  match (q.toList.map Char.toUpper).dropWhile Char.isWhitespace with
  | [] => none
  | cs => some (String.mk (cs.takeWhile (fun c => !c.isWhitespace)))

/-- The dictionaries returned by `execute_query`, one constructor per
`return` site (lines 138-143, 146-150, 153-157). -/
inductive QueryResult where
  | selectOk (data : List Row) (row_count : Nat) (truncated : Bool)
  | writeOk (message : String) (rows_affected : Int)
  | failure (error : String) (error_type : String)
deriving DecidableEq, Repr

/-- The `success` field of an `execute_query` response dictionary. -/
def QueryResult.success : QueryResult → Bool
  | .selectOk .. => true
  | .writeOk .. => true
  | .failure .. => false

/-- Embedding of `execute_query` (lines 117-157), parameterized by the
engine's outcome for the statement. A raised `sqlite3.Error` is caught by
the `except sqlite3.Error` clause and converted to the failure dictionary;
the `IndexError` raised by `split()[0]` on an all-whitespace query is not
caught (`Except.error`). On the SELECT branch the fetched rows are sliced
to `config.max_results`, `row_count` is the unsliced length, and
`truncated` compares the unsliced length against the cap. -/
def execute_query (outcome : ExecOutcome) (query : String) : Except String QueryResult :=
  match outcome with
  | .sqliteError msg ty => .ok (.failure msg ty)
  | .ok c =>
    match firstToken? query with
    | none => .error "IndexError: list index out of range"
    | some t =>
      if t = "SELECT" then
        .ok (.selectOk (c.rows.take config.max_results) c.rows.length
              (decide (c.rows.length > config.max_results)))
      else
        .ok (.writeOk ("Query executed successfully. Rows affected: " ++ toString c.rowcount)
              c.rowcount)

/-- Connection-level events of one operation, in order. Python's `sqlite3`
connection context manager (`with sqlite3.connect(...) as conn`) commits
the open transaction on normal exit and rolls it back on an exception; it
does not close the connection, and `execute_query` contains no explicit
`close` call. -/
inductive DbEvent where
  | connect
  | exec (stmt : String)
  | commit
  | rollback
  | close
deriving DecidableEq, Repr

/-- Event trace of `execute_query`: the connection is opened and the
statement submitted; on an engine error or on the uncaught `IndexError`
the context manager rolls back; on the SELECT branch the context manager
commits once; on the write branch the explicit `conn.commit()` (line 145)
is followed by the context manager's own commit. No close event occurs on
any path. -/
def execute_query_events (outcome : ExecOutcome) (query : String) : List DbEvent :=
  DbEvent.connect :: DbEvent.exec query ::
    (match outcome with
     | .sqliteError _ _ => [DbEvent.rollback]
     | .ok _ =>
       match firstToken? query with
       | none => [DbEvent.rollback]
       | some t =>
         if t = "SELECT" then [DbEvent.commit] else [DbEvent.commit, DbEvent.commit])

/-- The dictionaries returned by the `execute_sql` tool (lines 162-185):
either the early rejection dictionary (lines 174-177) or the result of
`execute_query` (the tool also attaches `database` and `timestamp`
metadata fields to that dictionary, which carry no logic and are omitted
here). -/
inductive SqlResponse where
  | operationNotAllowed (error : String)
  | queryResult (r : QueryResult)
deriving DecidableEq, Repr

/-- The `success` field of an `execute_sql` response dictionary. -/
def SqlResponse.success : SqlResponse → Bool
  | .operationNotAllowed _ => false
  | .queryResult r => r.success

/-- Embedding of the `execute_sql` tool (lines 162-185): extract the leading
keyword (raising `IndexError` on an empty or all-whitespace query), reject
it if it is outside `config.allowed_operations`, otherwise delegate to
`execute_query`. -/
def execute_sql (outcome : ExecOutcome) (query : String) : Except String SqlResponse :=
  match firstToken? query with
  | none => .error "IndexError: list index out of range"
  | some t =>
    if t ∈ config.allowed_operations then
      (execute_query outcome query).map SqlResponse.queryResult
    else
      .ok (.operationNotAllowed ("Operation " ++ t ++ " not allowed"))

/-- Event trace of `execute_sql`: nothing touches the database unless the
leading keyword passes the allow-list check, in which case the trace is
that of `execute_query`. -/
def execute_sql_events (outcome : ExecOutcome) (query : String) : List DbEvent :=
  match firstToken? query with
  | none => []
  | some t =>
    if t ∈ config.allowed_operations then execute_query_events outcome query else []

/-- Upper-casing a character does not change whether it is whitespace
(`Char.toUpper` only moves the ASCII range 97-122 down by 32, into 65-90,
and no whitespace character lies in either range). -/
theorem isWhitespace_toUpper (c : Char) : c.toUpper.isWhitespace = c.isWhitespace := by
  simp only [Char.toUpper]
  split
  next h =>
    obtain ⟨h1, h2⟩ := h
    have hv : (c.toNat - 32).isValidChar := by
      unfold Nat.isValidChar
      omega
    have hval : (Char.ofNat (c.toNat - 32)).toNat = c.toNat - 32 := by
      unfold Char.ofNat
      rw [dif_pos hv]
      rfl
    have hne : ∀ (d : Char), d.toNat ≥ 65 → d.isWhitespace = false := by
      intro d hd
      unfold Char.isWhitespace
      have e1 : d ≠ ' ' := by intro e; subst e; revert hd; decide
      have e2 : d ≠ '\t' := by intro e; subst e; revert hd; decide
      have e3 : d ≠ '\x0d' := by intro e; subst e; revert hd; decide
      have e4 : d ≠ '\n' := by intro e; subst e; revert hd; decide
      simp [e1, e2, e3, e4]
    rw [hne _ (by omega), hne c (by omega)]
  next => rfl

/-- C2: for every SELECT statement (leading token upper-cases to `SELECT`),
`execute_query` reports `row_count` equal to the true number of fetched
rows regardless of the cap, returns a `data` list of length
`min row_count max_results`, and sets `truncated` iff the true count
exceeds the cap. -/
theorem execute_query_select_cap (rows : List Row) (rc : Int) (q : String)
    (h : firstToken? q = some "SELECT") :
    execute_query (.ok ⟨rows, rc⟩) q
      = .ok (.selectOk (rows.take config.max_results) rows.length
          (decide (rows.length > config.max_results))) ∧
    (rows.take config.max_results).length = min rows.length config.max_results ∧
    (decide (rows.length > config.max_results) = true ↔ rows.length > config.max_results) := by
  refine ⟨?_, ?_, ?_⟩
  · simp [execute_query, h]
  · rw [List.length_take, Nat.min_comm]
  · exact decide_eq_true_iff

/-- Witness for C2 at the concrete query `select 1` with one matching row. -/
theorem execute_query_select_cap_witness :
    firstToken? "select 1" = some "SELECT" ∧
    (execute_query (.ok ⟨[[("1", "1")]], -1⟩) "select 1"
      = .ok (.selectOk ([[("1", "1")]].take config.max_results) [[("1", "1")]].length
          (decide ([[("1", "1")]].length > config.max_results))) ∧
    ([[("1", "1")]].take config.max_results).length
      = min [[("1", "1")]].length config.max_results ∧
    (decide ([[("1", "1")]].length > config.max_results) = true
      ↔ [[("1", "1")]].length > config.max_results)) :=
  ⟨by decide, execute_query_select_cap [[("1", "1")]] (-1) "select 1" (by decide)⟩

/-- C3: every statement whose leading keyword (first whitespace-delimited
token, upper-cased) lies outside the allow-list is answered by the
rejection dictionary — a returned value with `success = false`, not an
exception — and no database connection is opened. -/
theorem execute_sql_rejects_disallowed (outcome : ExecOutcome) (q t : String)
    (ht : firstToken? q = some t) (hna : t ∉ config.allowed_operations) :
    execute_sql outcome q
      = .ok (.operationNotAllowed ("Operation " ++ t ++ " not allowed")) ∧
    (SqlResponse.operationNotAllowed ("Operation " ++ t ++ " not allowed")).success = false ∧
    execute_sql_events outcome q = [] := by
  refine ⟨?_, rfl, ?_⟩ <;> simp [execute_sql, execute_sql_events, ht, if_neg hna]

/-- Witness for C3 at the concrete disallowed statement `PRAGMA ...`. -/
theorem execute_sql_rejects_disallowed_witness :
    firstToken? "PRAGMA table_info(users)" = some "PRAGMA" ∧
    "PRAGMA" ∉ config.allowed_operations ∧
    (execute_sql (.ok ⟨[], -1⟩) "PRAGMA table_info(users)"
      = .ok (.operationNotAllowed ("Operation " ++ "PRAGMA" ++ " not allowed")) ∧
    (SqlResponse.operationNotAllowed ("Operation " ++ "PRAGMA" ++ " not allowed")).success
      = false ∧
    execute_sql_events (.ok ⟨[], -1⟩) "PRAGMA table_info(users)" = []) :=
  ⟨by decide, by decide,
    execute_sql_rejects_disallowed (.ok ⟨[], -1⟩) "PRAGMA table_info(users)" "PRAGMA"
      (by decide) (by decide)⟩

/-- C5: every `sqlite3.Error` raised by the engine while executing a
statement is caught by `execute_query`'s `except sqlite3.Error` clause and
converted to the structured failure dictionary with `success = false`,
carrying the engine's error message and its error class name; it is
returned as a value, never propagated as an unhandled exception. -/
theorem execute_query_catches_engine_errors (msg ty q : String) :
    execute_query (.sqliteError msg ty) q = .ok (.failure msg ty) ∧
    (QueryResult.failure msg ty).success = false :=
  ⟨rfl, rfl⟩

/-- C7 fails on the code: `execute_query` opens a connection on every call,
but no execution path ever closes it — the `with sqlite3.connect(...)`
context manager only commits or rolls back on exit, and the function has
no explicit `close` call. -/
theorem execute_query_never_closes (outcome : ExecOutcome) (q : String) :
    DbEvent.connect ∈ execute_query_events outcome q ∧
    DbEvent.close ∉ execute_query_events outcome q := by
  constructor
  · exact List.mem_cons_self _ _
  · intro hmem
    cases outcome with
    | sqliteError msg ty => simp [execute_query_events] at hmem
    | ok c =>
      cases h : firstToken? q with
      | none => simp [execute_query_events, h] at hmem
      | some t =>
        by_cases ht : t = "SELECT" <;>
          simp [execute_query_events, h, ht] at hmem

/-- C10: calling `execute_sql` with an empty or all-whitespace query raises
an uncaught `IndexError` from `split()[0]` instead of returning a
structured success/failure dictionary. -/
theorem execute_sql_whitespace_raises (outcome : ExecOutcome) (q : String)
    (h : ∀ c ∈ q.toList, c.isWhitespace = true) :
    execute_sql outcome q = .error "IndexError: list index out of range" := by
  have hnone : firstToken? q = none := by
    unfold firstToken?
    have hnil : (q.toList.map Char.toUpper).dropWhile Char.isWhitespace = [] := by
      rw [List.dropWhile_eq_nil_iff]
      intro x hx
      obtain ⟨c, hc, rfl⟩ := List.mem_map.mp hx
      rw [isWhitespace_toUpper]
      exact h c hc
    rw [hnil]
  simp only [execute_sql, hnone]

/-- Witness for C10 at the concrete all-whitespace query `" \t\n"`. -/
theorem execute_sql_whitespace_raises_witness :
    (∀ c ∈ (" \t\n" : String).toList, c.isWhitespace = true) ∧
    execute_sql (.ok ⟨[], -1⟩) " \t\n" = .error "IndexError: list index out of range" :=
  ⟨by decide, execute_sql_whitespace_raises (.ok ⟨[], -1⟩) " \t\n" (by decide)⟩

/-- The dictionary returned by `optimize_database` (lines 377-382); the
`timestamp` metadata field carries no logic and is omitted. -/
structure OptimizeResult where
  success : Bool
  message : String
  operations : List (String × QueryResult)
deriving DecidableEq, Repr

/-- Embedding of the `optimize_database` tool (lines 360-382),
parameterized by the engine outcomes of the `VACUUM` and the `ANALYZE`
statement. Both statements are passed directly to `execute_query` — the
allow-list check lives only in `execute_sql` — and the returned `success`
field is the literal `True` of line 378, independent of the two
sub-results. -/
def optimize_database (vacuumOutcome analyzeOutcome : ExecOutcome) :
    Except String OptimizeResult := do
  let vacuum_result ← execute_query vacuumOutcome "VACUUM"
  let analyze_result ← execute_query analyzeOutcome "ANALYZE"
  return { success := true
           message := "Database optimization completed"
           operations := [("VACUUM", vacuum_result), ("ANALYZE", analyze_result)] }

/-- Event trace of `optimize_database`: the traces of its two sequential
`execute_query` calls. -/
def optimize_database_events (vacuumOutcome analyzeOutcome : ExecOutcome) : List DbEvent :=
  execute_query_events vacuumOutcome "VACUUM" ++ execute_query_events analyzeOutcome "ANALYZE"

/-- Embedding of the CREATE TABLE statement built by `create_table`
(lines 271-279): one `name type` fragment per column, with ` PRIMARY KEY`
appended to the column named by a non-empty `primary_key` argument
(Python truthiness of `params.primary_key and col_name == params.primary_key`). -/
def create_table_query (table_name : String) (columns : List (String × String))
    (primary_key : Option String) : String :=
  let column_defs := columns.map (fun cd =>
    cd.1 ++ " " ++ cd.2 ++
      (match primary_key with
       | some pk => if pk ≠ "" ∧ cd.1 = pk then " PRIMARY KEY" else ""
       | none => ""))
  "CREATE TABLE IF NOT EXISTS "
    ++ (table_name ++ " (" ++ String.intercalate ", " column_defs ++ ")")

/-- Embedding of the `create_table` tool (lines 264-281): builds the CREATE
TABLE statement and delegates directly to `execute_query`. -/
def create_table (outcome : ExecOutcome) (table_name : String)
    (columns : List (String × String)) (primary_key : Option String) :
    Except String QueryResult :=
  execute_query outcome (create_table_query table_name columns primary_key)

/-- C4 fails on the code: a run in which the `VACUUM` sub-operation fails
still returns the overall flag `success = true`, because line 378 hardcodes
it; the failed sub-result is visible inside `operations`. -/
theorem optimize_database_success_despite_failure :
    optimize_database (.sqliteError "database disk image is malformed" "DatabaseError")
        (.ok ⟨[], -1⟩)
      = .ok { success := true
              message := "Database optimization completed"
              operations :=
                [("VACUUM", .failure "database disk image is malformed" "DatabaseError"),
                 ("ANALYZE", .writeOk "Query executed successfully. Rows affected: -1" (-1))] } ∧
    (QueryResult.failure "database disk image is malformed" "DatabaseError").success = false :=
  ⟨rfl, rfl⟩

/-- C4 (amended): `optimize_database` issues `VACUUM` then `ANALYZE`
sequentially via `execute_query` and returns both individual outcomes, but
its overall `success` flag is unconditionally `true`, even when a
sub-operation fails. -/
theorem optimize_database_always_reports_success (vacuumOutcome analyzeOutcome : ExecOutcome) :
    ∃ vacuum_result analyze_result,
      execute_query vacuumOutcome "VACUUM" = .ok vacuum_result ∧
      execute_query analyzeOutcome "ANALYZE" = .ok analyze_result ∧
      optimize_database vacuumOutcome analyzeOutcome
        = .ok { success := true
                message := "Database optimization completed"
                operations := [("VACUUM", vacuum_result), ("ANALYZE", analyze_result)] } := by
  cases vacuumOutcome <;> cases analyzeOutcome <;> exact ⟨_, _, rfl, rfl, rfl⟩

/-- The statement built by `create_table` always begins with the keyword
`CREATE` followed by a space, so its leading token is `CREATE`. -/
theorem firstToken?_create (s : String) :
    firstToken? ("CREATE TABLE IF NOT EXISTS " ++ s) = some "CREATE" := by
  unfold firstToken?
  rw [show ("CREATE TABLE IF NOT EXISTS " ++ s).toList
        = 'C' :: ("REATE TABLE IF NOT EXISTS ".toList ++ s.toList) by
      simp only [String.toList]
      rw [String.data_append]
      rfl]
  rw [List.map_cons, List.dropWhile_cons,
      if_neg (by decide : ¬ ('C'.toUpper.isWhitespace = true))]
  rw [List.map_append,
      show List.map Char.toUpper "REATE TABLE IF NOT EXISTS ".toList
        = "REATE TABLE IF NOT EXISTS ".toList by decide]
  rfl

/-- C6 fails on the code: `optimize_database` passes `VACUUM` (and
`ANALYZE`) directly to `execute_query`, which performs no allow-list
check, so a statement whose leading keyword is outside the allow-list is
executed against the engine. -/
theorem optimize_database_bypasses_allowlist :
    firstToken? "VACUUM" = some "VACUUM" ∧
    "VACUUM" ∉ config.allowed_operations ∧
    DbEvent.exec "VACUUM" ∈ optimize_database_events (.ok ⟨[], -1⟩) (.ok ⟨[], -1⟩) := by
  refine ⟨by decide, by decide, by decide⟩

/-- C6 (amended): the allow-list gate holds on the `execute_sql` path
(a disallowed leading keyword means nothing reaches the engine), and
`create_table` only builds statements with the allowed leading keyword
`CREATE`; but `optimize_database` executes `VACUUM` and `ANALYZE` — both
outside the allow-list — directly through `execute_query`, which performs
no allow-list check. -/
theorem allowlist_gate_per_path (outcome : ExecOutcome) (q t : String)
    (tbl : String) (cols : List (String × String)) (pk : Option String)
    (v a : ExecOutcome)
    (ht : firstToken? q = some t) (hna : t ∉ config.allowed_operations) :
    execute_sql_events outcome q = [] ∧
    (firstToken? (create_table_query tbl cols pk) = some "CREATE" ∧
      "CREATE" ∈ config.allowed_operations) ∧
    (DbEvent.exec "VACUUM" ∈ optimize_database_events v a ∧
      DbEvent.exec "ANALYZE" ∈ optimize_database_events v a ∧
      firstToken? "VACUUM" = some "VACUUM" ∧
      "VACUUM" ∉ config.allowed_operations ∧
      firstToken? "ANALYZE" = some "ANALYZE" ∧
      "ANALYZE" ∉ config.allowed_operations) := by
  refine ⟨?_, ⟨firstToken?_create _, by decide⟩, ?_, ?_, by decide, by decide, by decide, by decide⟩
  · simp [execute_sql_events, ht, if_neg hna]
  · exact List.mem_append.mpr (Or.inl (List.mem_cons_of_mem _ (List.mem_cons_self _ _)))
  · exact List.mem_append.mpr (Or.inr (List.mem_cons_of_mem _ (List.mem_cons_self _ _)))

/-- Witness for the amended C6 at concrete inputs. -/
theorem allowlist_gate_per_path_witness :
    firstToken? "PRAGMA journal_mode" = some "PRAGMA" ∧
    "PRAGMA" ∉ config.allowed_operations ∧
    (execute_sql_events (.ok ⟨[], -1⟩) "PRAGMA journal_mode" = [] ∧
    (firstToken? (create_table_query "t" [("id", "INTEGER")] (some "id")) = some "CREATE" ∧
      "CREATE" ∈ config.allowed_operations) ∧
    (DbEvent.exec "VACUUM" ∈ optimize_database_events (.ok ⟨[], -1⟩) (.ok ⟨[], -1⟩) ∧
      DbEvent.exec "ANALYZE" ∈ optimize_database_events (.ok ⟨[], -1⟩) (.ok ⟨[], -1⟩) ∧
      firstToken? "VACUUM" = some "VACUUM" ∧
      "VACUUM" ∉ config.allowed_operations ∧
      firstToken? "ANALYZE" = some "ANALYZE" ∧
      "ANALYZE" ∉ config.allowed_operations)) :=
  ⟨by decide, by decide,
    allowlist_gate_per_path (.ok ⟨[], -1⟩) "PRAGMA journal_mode" "PRAGMA" "t"
      [("id", "INTEGER")] (some "id") (.ok ⟨[], -1⟩) (.ok ⟨[], -1⟩) (by decide) (by decide)⟩

/-- A wall-clock timestamp: the fields of `datetime.now()` that the backup
filename uses. -/
structure DateTime where
  year : Nat
  month : Nat
  day : Nat
  hour : Nat
  minute : Nat
  second : Nat
deriving DecidableEq, Repr

/-- Zero-pad a numeral to two digits, as `strftime`'s `%m`, `%d`, `%H`,
`%M` and `%S` directives do. -/
def pad2 (n : Nat) : String := if n < 10 then "0" ++ toString n else toString n

/-- Zero-pad a numeral to four digits, as `strftime`'s `%Y` directive does. -/
def pad4 (n : Nat) : String :=
  if n < 10 then "000" ++ toString n
  else if n < 100 then "00" ++ toString n
  else if n < 1000 then "0" ++ toString n
  else toString n

/-- Embedding of `datetime.now().strftime("%Y%m%d_%H%M%S")` (line 300):
the timestamp rendered in the form YYYYMMDD_HHMMSS. -/
def strftime_compact (t : DateTime) : String :=
  pad4 t.year ++ pad2 t.month ++ pad2 t.day ++ "_"
    ++ pad2 t.hour ++ pad2 t.minute ++ pad2 t.second

/-- The final component of a path (`PurePath.name`; empty when the path has
no components). -/
def pyName (p : PyPath) : String := (p.components.getLast?).getD ""

/-- Index of the last `.` in a character list, if any (Python `str.rfind`). -/
def rfindDot (cs : List Char) : Option Nat :=
  match (cs.reverse).findIdx? (fun c => c == '.') with
  | none => none
  | some k => some (cs.length - 1 - k)

/-- Embedding of `PurePath.stem`: the final component without its last
suffix; a dot in first or last position does not start a suffix (CPython
returns `name[:i]` only when `0 < i < len(name) - 1` for
`i = name.rfind('.')`). -/
def pyStem (name : String) : String :=
  match rfindDot name.toList with
  | none => name
  | some i =>
    if 0 < i ∧ i < name.toList.length - 1 then String.mk (name.toList.take i) else name

/-- Render a path back to a string, as `str(path)` does. -/
def renderPath (p : PyPath) : String :=
  (if p.absolute then "/" else "") ++ String.intercalate "/" p.components

/-- The backup destination `backup_database` resolves (lines 299-304): the
caller-supplied path when one is given, otherwise
`config.data_dir / f"{source_path.stem}_backup_{timestamp}.db"`. -/
def backup_dest (source_db : String) (backup_path : Option String) (now : DateTime) : PyPath :=
  match backup_path with
  | some p => parsePath p
  | none =>
    joinPath config.data_dir
      (parsePath (pyStem (pyName (get_db_path source_db)) ++ "_backup_"
        ++ strftime_compact now ++ ".db"))

/-- The dictionaries returned by `backup_database` (lines 292-328), one
constructor per `return` site; the `timestamp` metadata field is omitted. -/
inductive BackupResult where
  | notFound (error : String)
  | ok (message : String) (backup_path : String)
  | failed (error : String) (error_type : String)
deriving DecidableEq, Repr

/-- Embedding of the `backup_database` tool (lines 284-328), parameterized
by whether the source file exists and by the outcome of the engine's
online-backup call (`none` = success; `some (msg, ty)` = raised
exception, caught by the `except` clause of lines 323-328). -/
def backup_database (sourceExists : Bool) (source_db : String)
    (backup_path : Option String) (now : DateTime)
    (engineError : Option (String × String)) : BackupResult :=
  if !sourceExists then
    .notFound ("Source database " ++ source_db ++ " does not exist")
  else
    match engineError with
    | none =>
      .ok "Database backed up successfully" (renderPath (backup_dest source_db backup_path now))
    | some e => .failed e.1 e.2

/-- Files a `backup_database` call touches on disk: none when the source is
missing (the existence check on line 292 returns before any connection is
opened), otherwise the destination file. -/
def backup_writes (sourceExists : Bool) (source_db : String)
    (backup_path : Option String) (now : DateTime) : List String :=
  if !sourceExists then [] else [renderPath (backup_dest source_db backup_path now)]

/-- Restatement of `String.data_append` in `toList` form: `toList`
distributes over string append. -/
theorem toList_append (a b : String) : (a ++ b).toList = a.toList ++ b.toList :=
  String.data_append a b

/-- Splitting on a separator that does not occur returns the whole list as
the single piece. -/
theorem splitOnChar_of_not_mem (sep : Char) (cs : List Char) (h : sep ∉ cs) :
    splitOnChar sep cs = [cs] := by
  induction cs with
  | nil => rfl
  | cons c rest ih =>
    have hc : ¬ (c = sep) := fun e => h (e ▸ List.mem_cons_self c rest)
    rw [splitOnChar, if_neg hc, ih (fun hm => h (List.mem_cons_of_mem c hm))]

/-- A nonempty, slash-free name other than `.` parses to a single relative
path component. -/
theorem parsePath_single (name : String) (h1 : '/' ∉ name.toList)
    (h2 : name ≠ "") (h3 : name ≠ ".") :
    parsePath name = ⟨false, [name]⟩ := by
  unfold parsePath
  have habs : (match name.toList with
      | c :: _ => c == '/'
      | [] => false) = false := by
    cases hcs : name.toList with
    | nil => rfl
    | cons c t =>
      have : ¬ (c = '/') := fun e => h1 (by rw [hcs, e]; exact List.mem_cons_self _ _)
      simp [this]
  have hcomps : ((splitOnChar '/' name.toList).map String.mk).filter
      (fun c => !(c == "") && !(c == ".")) = [name] := by
    rw [splitOnChar_of_not_mem '/' name.toList h1]
    have hmk : String.mk name.toList = name := rfl
    simp [hmk, h2, h3]
  rw [habs, hcomps]

/-- No string of the shape `x ++ ".db"` is empty, `.` or `..`. -/
theorem append_db_ne (x : String) :
    x ++ ".db" ≠ "" ∧ x ++ ".db" ≠ "." ∧ x ++ ".db" ≠ ".." := by
  have hlen : (x ++ ".db").toList.length = x.toList.length + 3 := by
    rw [toList_append, List.length_append, show (".db" : String).toList.length = 3 from rfl]
  refine ⟨fun h => ?_, fun h => ?_, fun h => ?_⟩
  · rw [h, show ("" : String).toList.length = 0 from rfl] at hlen; omega
  · rw [h, show ("." : String).toList.length = 1 from rfl] at hlen; omega
  · rw [h, show (".." : String).toList.length = 2 from rfl] at hlen; omega

/-- C8: when the source database file does not exist, `backup_database`
returns the NotFound failure dictionary and touches nothing on disk; and
when no destination path is supplied, the synthesized destination is the
sandbox directory `data` plus the single file name
`<source-stem>_backup_<YYYYMMDD_HHMMSS>.db`. -/
theorem backup_database_notfound_and_dest (source_db : String) (bp : Option String)
    (now : DateTime) (engineError : Option (String × String))
    (hstem : '/' ∉ (pyStem (pyName (get_db_path source_db))).toList)
    (hts : '/' ∉ (strftime_compact now).toList) :
    (backup_database false source_db bp now engineError
        = .notFound ("Source database " ++ source_db ++ " does not exist") ∧
      backup_writes false source_db bp now = []) ∧
    backup_dest source_db none now
      = ⟨false, ["data", pyStem (pyName (get_db_path source_db)) ++ "_backup_"
          ++ strftime_compact now ++ ".db"]⟩ ∧
    isUnderDataDir (backup_dest source_db none now) = true := by
  have hne := append_db_ne
    (pyStem (pyName (get_db_path source_db)) ++ "_backup_" ++ strftime_compact now)
  have hslash : '/' ∉ (pyStem (pyName (get_db_path source_db)) ++ "_backup_"
      ++ strftime_compact now ++ ".db").toList := by
    rw [toList_append, toList_append, toList_append]
    intro hmem
    rcases List.mem_append.mp hmem with hmem | hmem
    · rcases List.mem_append.mp hmem with hmem | hmem
      · rcases List.mem_append.mp hmem with hmem | hmem
        · exact hstem hmem
        · revert hmem; decide
      · exact hts hmem
    · revert hmem; decide
  have hdest : backup_dest source_db none now
      = ⟨false, ["data", pyStem (pyName (get_db_path source_db)) ++ "_backup_"
          ++ strftime_compact now ++ ".db"]⟩ := by
    unfold backup_dest
    rw [parsePath_single _ hslash hne.1 hne.2.1]
    rfl
  refine ⟨⟨rfl, rfl⟩, hdest, ?_⟩
  rw [hdest]
  unfold isUnderDataDir resolveDots
  have hstep : List.foldl dotStep []
      ["data", pyStem (pyName (get_db_path source_db)) ++ "_backup_"
        ++ strftime_compact now ++ ".db"]
      = ["data", pyStem (pyName (get_db_path source_db)) ++ "_backup_"
        ++ strftime_compact now ++ ".db"] := by
    rw [foldl_dotStep_of_no_dots]
    · rfl
    · intro c hc
      rcases List.mem_cons.mp hc with rfl | hc
      · exact ⟨by decide, by decide⟩
      · rcases List.mem_cons.mp hc with rfl | hc
        · exact ⟨hne.2.2, hne.2.1⟩
        · cases hc
  rw [hstep]
  rfl

/-- Witness for C8 at the concrete source `main.db` and a concrete clock
reading: the synthesized destination is
`data/main_backup_20261012_010203.db`. -/
theorem backup_database_notfound_and_dest_witness :
    '/' ∉ (pyStem (pyName (get_db_path "main.db"))).toList ∧
    '/' ∉ (strftime_compact ⟨2026, 10, 12, 1, 2, 3⟩).toList ∧
    ((backup_database false "main.db" none ⟨2026, 10, 12, 1, 2, 3⟩ none
        = .notFound ("Source database " ++ "main.db" ++ " does not exist") ∧
      backup_writes false "main.db" none ⟨2026, 10, 12, 1, 2, 3⟩ = []) ∧
    backup_dest "main.db" none ⟨2026, 10, 12, 1, 2, 3⟩
      = ⟨false, ["data", pyStem (pyName (get_db_path "main.db")) ++ "_backup_"
          ++ strftime_compact ⟨2026, 10, 12, 1, 2, 3⟩ ++ ".db"]⟩ ∧
    isUnderDataDir (backup_dest "main.db" none ⟨2026, 10, 12, 1, 2, 3⟩) = true) :=
  ⟨by decide, by decide,
    backup_database_notfound_and_dest "main.db" none ⟨2026, 10, 12, 1, 2, 3⟩ none
      (by decide) (by decide)⟩

/-- Column descriptor built from a `PRAGMA table_info` row (lines 222-231). -/
structure ColumnInfo where
  name : String
  type : String
  not_null : Bool
  default_value : Option String
  primary_key : Bool
deriving DecidableEq, Repr

/-- Index descriptor built from `PRAGMA index_list` and `PRAGMA index_info`
rows (lines 233-243). -/
structure IndexInfo where
  name : String
  unique : Bool
  columns : List String
deriving DecidableEq, Repr

/-- Per-table schema details (columns, indexes, `SELECT COUNT(*)` row
count) as assembled in lines 249-253. -/
structure TableInfo where
  columns : List ColumnInfo
  indexes : List IndexInfo
  row_count : Nat
deriving DecidableEq, Repr

/-- The introspectable state of a database file: its `sqlite_master` rows
of type `table`, each name paired with the details the per-table PRAGMA
and COUNT round-trips return for it. -/
structure Database where
  tables : List (String × TableInfo)
deriving DecidableEq, Repr

/-- The dictionaries returned by `get_schema` (lines 188-262), one
constructor per `return` site. -/
inductive SchemaResult where
  | ok (database : String) (tables : List (String × TableInfo))
  | notFound (error : String)
  | failure (error : String) (error_type : String)
deriving DecidableEq, Repr

/-- The table mapping of a schema response (the `tables` key; empty for the
failure dictionaries). -/
def SchemaResult.tablesOf : SchemaResult → List (String × TableInfo)
  | .ok _ ts => ts
  | .notFound _ => []
  | .failure .. => []

/-- The per-table detail fetch of lines 220-253: the three PRAGMA/COUNT
round-trips for a table name obtained from `sqlite_master`. -/
def introspect (db : Database) (n : String) : TableInfo :=
  (((db.tables).find? (fun p => p.1 == n)).map Prod.snd).getD ⟨[], [], 0⟩

/-- Embedding of the `get_schema` tool (lines 188-262), parameterized by
whether the database file exists and by its introspectable state. With a
`table_name` the enumeration query is
`SELECT name FROM sqlite_master WHERE type='table' AND name=?`; without
one it is `... WHERE type='table' AND name != 'sqlite_sequence'`. -/
def get_schema (dbExists : Bool) (db : Database) (database : String)
    (table_name : Option String) : SchemaResult :=
  if !dbExists then
    .notFound ("Database " ++ database ++ " does not exist")
  else
    let tables :=
      match table_name with
      | some t => (db.tables.map Prod.fst).filter (fun n => n == t)
      | none => (db.tables.map Prod.fst).filter (fun n => !(n == "sqlite_sequence"))
    .ok database (tables.map (fun n => (n, introspect db n)))

/-- C9: on an existing database, `get_schema` with a `table_name` that
names no existing table returns the success dictionary with an empty
table mapping (not an error); with no `table_name`, the enumeration lists
exactly the tables other than the engine's `sqlite_sequence` bookkeeping
table, so every user table other than `sqlite_sequence` is included. -/
theorem get_schema_missing_table_and_enumeration (db : Database) (database t : String)
    (h : t ∉ db.tables.map Prod.fst) :
    get_schema true db database (some t) = .ok database [] ∧
    (get_schema true db database none).tablesOf.map Prod.fst
      = (db.tables.map Prod.fst).filter (fun n => !(n == "sqlite_sequence")) ∧
    ∀ n ∈ db.tables.map Prod.fst, n ≠ "sqlite_sequence" →
      n ∈ (get_schema true db database none).tablesOf.map Prod.fst := by
  have h1 : (db.tables.map Prod.fst).filter (fun n => n == t) = [] := by
    rw [List.filter_eq_nil_iff]
    intro a ha hat
    exact h (eq_of_beq hat ▸ ha)
  have h2 : (get_schema true db database none).tablesOf.map Prod.fst
      = (db.tables.map Prod.fst).filter (fun n => !(n == "sqlite_sequence")) := by
    have e : (get_schema true db database none).tablesOf
        = ((db.tables.map Prod.fst).filter (fun n => !(n == "sqlite_sequence"))).map
            (fun n => (n, introspect db n)) := rfl
    rw [e, List.map_map, show (Prod.fst ∘ fun n => (n, introspect db n)) = id from rfl,
      List.map_id]
  refine ⟨?_, h2, ?_⟩
  · simp [get_schema, h1]
  · intro n hn hne
    rw [h2]
    exact List.mem_filter.mpr ⟨hn, by simp [hne]⟩

/-- Witness for C9 on a concrete two-table database and the absent table
name `missing`. -/
theorem get_schema_missing_table_witness :
    "missing" ∉ (Database.mk [("users", ⟨[], [], 0⟩), ("sqlite_sequence", ⟨[], [], 0⟩)]).tables.map
        Prod.fst ∧
    (get_schema true (Database.mk [("users", ⟨[], [], 0⟩), ("sqlite_sequence", ⟨[], [], 0⟩)])
        "main.db" (some "missing") = .ok "main.db" [] ∧
    (get_schema true (Database.mk [("users", ⟨[], [], 0⟩), ("sqlite_sequence", ⟨[], [], 0⟩)])
        "main.db" none).tablesOf.map Prod.fst
      = ((Database.mk [("users", ⟨[], [], 0⟩), ("sqlite_sequence", ⟨[], [], 0⟩)]).tables.map
          Prod.fst).filter (fun n => !(n == "sqlite_sequence")) ∧
    ∀ n ∈ (Database.mk [("users", ⟨[], [], 0⟩), ("sqlite_sequence", ⟨[], [], 0⟩)]).tables.map
        Prod.fst, n ≠ "sqlite_sequence" →
      n ∈ (get_schema true
          (Database.mk [("users", ⟨[], [], 0⟩), ("sqlite_sequence", ⟨[], [], 0⟩)])
          "main.db" none).tablesOf.map Prod.fst) :=
  ⟨by decide,
    get_schema_missing_table_and_enumeration
      (Database.mk [("users", ⟨[], [], 0⟩), ("sqlite_sequence", ⟨[], [], 0⟩)])
      "main.db" "missing" (by decide)⟩

end SqliteMcp
